import Mathlib

/-!
Shallow embedding of the generative poster rendering engine of `src/app.py`.

The embedded core consists of:
* the per-field default substitution performed by each generator via
  `params.get(key, default)` (lines 131-134, 152-155, 180-183), collected in
  `resolveParams`;
* `setup_canvas` (lines 116-125), which allocates a fresh drawing surface and
  reseeds the process-global NumPy random stream with the constant 42;
* the three generators `generate_impressionism_touch_poster` (127-146),
  `generate_layered_lines_poster` (148-174), `generate_convex_tiles_poster`
  (176-199);
* the style dispatch of `main` (lines 342-348).

Modelling conventions:
* Python floats are modelled as rationals (`ℚ`).
* The NumPy global random stream is modelled as an explicitly threaded `Rng`
  state holding a linear-congruential state; `Rng.next` produces a value in
  `[0, 1)`.  `npNormal` stands for `np.random.normal`: it consumes one draw of
  the stream and returns `mu + sigma * z` for a variate `z` computed from the
  draw; the shape of the distribution is irrelevant to every claim, only the
  mean/scale structure and the number of stream draws consumed are modelled.
* A matplotlib figure is modelled as a `Canvas`: its title and its ordered
  list of drawing primitives (`Draw`).
* Fallible Python operations are modelled in `Except PyError`: `1.0 / n`
  raises `ZeroDivisionError` when `n = 0` (`pyDiv`), and `i % len(colors)`
  raises `ZeroDivisionError` when `colors` is empty (`pyIndexMod`).
* The parameter dict is modelled as `RawParams`, a record of optional typed
  fields; each generator returns the dict state after the call alongside the
  figure, so that non-mutation of the caller's dict is expressible.
* `PyError.invalidParameter` and `PyError.unsupportedStyle` come from the
  design document's error taxonomy (its section 7); the source never raises
  them, which is exactly what the corresponding theorems record.
-/

/-- Modulus of the modelled random stream (31-bit linear congruential). -/
def rngModulus : Nat := 2 ^ 31

/-- One step of the modelled generator's state transition. -/
def lcgNext (s : Nat) : Nat := (1103515245 * s + 12345) % rngModulus

/-- State of the process-global NumPy random stream. -/
structure Rng where
  state : Nat
deriving DecidableEq, Repr

/-- Models `np.random.seed(n)`: resets the stream to a state determined by `n`. -/
def npSeed (n : Nat) : Rng := ⟨n % rngModulus⟩

/-- Draw one value of the base stream, uniformly distributed in `[0, 1)`. -/
def Rng.next (g : Rng) : ℚ × Rng :=
  (((lcgNext g.state : ℚ) / (rngModulus : ℚ)), ⟨lcgNext g.state⟩)

/-- Models a scalar `np.random.uniform(a, b)`: `a + (b - a) * u` for a base draw `u`. -/
def npUniform (a b : ℚ) (g : Rng) : ℚ × Rng :=
  ((a + (b - a) * (g.next).1), (g.next).2)

/-- Models `np.random.uniform(a, b, n)`: an array of `n` fresh uniform draws. -/
def npUniformArr (a b : ℚ) : Nat → Rng → List ℚ × Rng
  | 0, g => ([], g)
  | n + 1, g =>
    ((npUniform a b g).1 :: (npUniformArr a b n (npUniform a b g).2).1,
      (npUniformArr a b n (npUniform a b g).2).2)

/-- Models a scalar `np.random.normal(mu, sigma)`: consumes one base draw `u` and
returns `mu + sigma * z` where `z = 2 * u - 1` stands for the standard-normal
variate computed from the draw. -/
def npNormal (mu sigma : ℚ) (g : Rng) : ℚ × Rng :=
  ((mu + sigma * (2 * (g.next).1 - 1)), (g.next).2)

/-- Models `np.random.rand()`: one uniform draw in `[0, 1)`. -/
def npRand (g : Rng) : ℚ × Rng := g.next

/-- A matplotlib drawing primitive issued by one of the generators. -/
inductive Draw where
  /-- `ax.scatter(xs, ys, s=size, color=color, alpha=alpha, edgecolors='none')`. -/
  | scatter (xs ys : List ℚ) (size : ℚ) (color : String) (alpha : ℚ)
  /-- `ax.plot([x1, x2], [y1, y2], color=color, linewidth=lw, alpha=alpha, zorder=z)`. -/
  | plotLine (x1 x2 y1 y2 : ℚ) (color : String) (linewidth : ℚ) (alpha : ℚ) (zorder : Nat)
  /-- `plt.Circle((cx, cy), r, color=color, alpha=alpha, edgecolor='none')` added to the axes. -/
  | circle (cx cy r : ℚ) (color : String) (alpha : ℚ)
deriving DecidableEq, Repr

/-- The figure/axes pair of `setup_canvas`: a title and the ordered drawing list. -/
structure Canvas where
  title : String
  draws : List Draw
deriving DecidableEq, Repr

/-- Errors of the modelled Python code, plus the design document's error taxonomy.
Only `zeroDivision` (Python's `ZeroDivisionError`) is ever produced by the source;
`invalidParameter` and `unsupportedStyle` are the errors the design document
prescribes and are needed to state the claims that mention them. -/
inductive PyError where
  | zeroDivision
  | invalidParameter
  | unsupportedStyle
deriving DecidableEq, Repr

/-- Equality of `Except` results is decidable componentwise; this lets concrete
renders be checked by `decide`. -/
instance {ε α : Type} [DecidableEq ε] [DecidableEq α] : DecidableEq (Except ε α) := by
  intro a b
  cases a with
  | error e =>
    cases b with
    | error f =>
      exact if h : e = f then isTrue (by rw [h]) else
        isFalse (fun hc => h (by injection hc))
    | ok y => exact isFalse (fun hc => Except.noConfusion hc)
  | ok x =>
    cases b with
    | error f => exact isFalse (fun hc => Except.noConfusion hc)
    | ok y =>
      exact if h : x = y then isTrue (by rw [h]) else
        isFalse (fun hc => h (by injection hc))

def style1Title : String := "Style 1: Impressionism Touch"

def style2Title : String := "Style 2: Layered Lines"

def style3Title : String := "Style 3: Convex Tiles"

/-- `setup_canvas` (lines 116-125): fresh white square figure with the given title
and no draws yet; reseeds the global random stream with the constant 42,
discarding whatever state the stream had before the call. -/
def setup_canvas (title : String) (g : Rng) : Canvas × Rng :=
  (⟨title, []⟩, npSeed 42)

/-- The untrusted parameter mapping handed to the generators.  Each field is
`none` when the corresponding dict key is absent. -/
structure RawParams where
  color_palette : Option (List String)
  layers : Option Int
  wobble_factor : Option ℚ
  analysis : Option String
deriving DecidableEq, Repr

/-- The fully resolved design parameters a generator actually consumes. -/
structure DesignParameters where
  palette : List String
  layers : Int
  wobble : ℚ
deriving DecidableEq, Repr

/-- The hardcoded default palette (line 131): 4 fixed HEX colors. -/
def defaultPalette : List String := ["#FF0000", "#0000FF", "#00FF00", "#FFFF00"]

/-- The parameter resolution performed identically at the top of each generator
(lines 131-134): `params.get('color_palette', default)`,
`params.get('layers', 5)`, `params.get('wobble_factor', 0.2)`.  Substitutes the
hardcoded default exactly when the key is absent and passes a present value
through unchanged. -/
def resolveParams (p : RawParams) : DesignParameters :=
  ⟨p.color_palette.getD defaultPalette, p.layers.getD 5, p.wobble_factor.getD (2/10)⟩

/-- Python `range(n)` for an `int` argument: empty when `n ≤ 0`. -/
def pyRange (n : Int) : List Nat := List.range n.toNat

/-- Python float division `a / b` by an integer: raises `ZeroDivisionError` when
`b = 0` (line 188: `STEP = 1.0 / GRID_SIZE`). -/
def pyDiv (a : ℚ) (b : Int) : Except PyError ℚ :=
  if b = 0 then .error PyError.zeroDivision else .ok (a / (b : ℚ))

/-- Cyclic palette lookup `colors[i % len(colors)]` on a non-empty list. -/
def palColor (colors : List String) (i : Nat) : String :=
  colors.getD (i % colors.length) ""

/-- Python `colors[i % len(colors)]`: `i % 0` raises `ZeroDivisionError` when the
list is empty, otherwise the modulo index is in range. -/
def pyIndexMod (colors : List String) (i : Nat) : Except PyError String :=
  match colors with
  | [] => .error PyError.zeroDivision
  | _ :: _ => .ok (palColor colors i)

/-- Loop body of `generate_impressionism_touch_poster` (lines 142-145): the draws
for layer `i`, in stream order: the x array, its single jitter offset, the y
array, its single jitter offset, the single marker size. -/
def scatterStep (wobble : ℚ) (nPoints : Nat) (color : String) (g : Rng) : Draw × Rng :=
  let xs := (npUniformArr 0 1 nPoints g).1
  let g1 := (npUniformArr 0 1 nPoints g).2
  let dx := (npNormal 0 (wobble * (1/10)) g1).1
  let g2 := (npNormal 0 (wobble * (1/10)) g1).2
  let ys := (npUniformArr 0 1 nPoints g2).1
  let g3 := (npUniformArr 0 1 nPoints g2).2
  let dy := (npNormal 0 (wobble * (1/10)) g3).1
  let g4 := (npNormal 0 (wobble * (1/10)) g3).2
  let sz := (npUniform 10 50 g4).1
  let g5 := (npUniform 10 50 g4).2
  (Draw.scatter (xs.map (fun v => v + dx)) (ys.map (fun v => v + dy)) sz color (15/100), g5)

/-- The `for i in range(layers)` loop of `generate_impressionism_touch_poster`
(lines 140-145), threading the figure and the global random stream. -/
def scatterLoop (colors : List String) (wobble : ℚ) (nPoints : Nat) :
    List Nat → Canvas → Rng → Except PyError (Canvas × Rng)
  | [], c, g => .ok (c, g)
  | i :: rest, c, g =>
    match pyIndexMod colors i with
    | .error e => .error e
    | .ok color =>
      scatterLoop colors wobble nPoints rest
        ⟨c.title, c.draws ++ [(scatterStep wobble nPoints color g).1]⟩
        (scatterStep wobble nPoints color g).2

/-- `generate_impressionism_touch_poster` (lines 127-146).  Returns the figure,
the global random-stream state after the call, and the parameter dict as left
by the call. -/
def generate_impressionism_touch_poster (params : RawParams) (point_count : Nat) (g0 : Rng) :
    Except PyError (Canvas × Rng × RawParams) :=
  match scatterLoop (resolveParams params).palette (resolveParams params).wobble point_count
      (pyRange (resolveParams params).layers)
      (setup_canvas style1Title g0).1 (setup_canvas style1Title g0).2 with
  | .error e => .error e
  | .ok (c, g) => .ok (c, g, params)

/-- Loop body of `generate_layered_lines_poster` (lines 162-173): the segment for
index `i`.  In both parity branches the stream draws, in order: the start point
(2 draws), the end point (2 draws), the two jitter offsets, the line width; the
branches differ only in how the draws are used, so the draws are hoisted. -/
def lineStep (wobble : ℚ) (color : String) (i : Nat) (g : Rng) : Draw × Rng :=
  let sx := (npUniform 0 1 g).1
  let g1 := (npUniform 0 1 g).2
  let sy := (npUniform 0 1 g1).1
  let g2 := (npUniform 0 1 g1).2
  let ex := (npUniform 0 1 g2).1
  let g3 := (npUniform 0 1 g2).2
  let ey := (npUniform 0 1 g3).1
  let g4 := (npUniform 0 1 g3).2
  let j1 := (npNormal 0 (wobble * (5/100)) g4).1
  let g5 := (npNormal 0 (wobble * (5/100)) g4).2
  let j2 := (npNormal 0 (wobble * (5/100)) g5).1
  let g6 := (npNormal 0 (wobble * (5/100)) g5).2
  let lw := (npUniform 1 5 g6).1
  let g7 := (npUniform 1 5 g6).2
  if i % 2 = 0 then
    (Draw.plotLine sx (ex + wobble * (1/2)) (sy + j1) (sy + j2) color lw (3/10) i, g7)
  else
    (Draw.plotLine (sx + j1) (sx + j2) sy (ey + wobble * (1/2)) color lw (3/10) i, g7)

/-- The `for i in range(N_LINES)` loop of `generate_layered_lines_poster`
(lines 161-173). -/
def linesLoop (colors : List String) (wobble : ℚ) :
    List Nat → Canvas → Rng → Except PyError (Canvas × Rng)
  | [], c, g => .ok (c, g)
  | i :: rest, c, g =>
    match pyIndexMod colors i with
    | .error e => .error e
    | .ok color =>
      linesLoop colors wobble rest
        ⟨c.title, c.draws ++ [(lineStep wobble color i g).1]⟩
        (lineStep wobble color i g).2

/-- `generate_layered_lines_poster` (lines 148-174).  The resolved `layers` value
is computed by the source (line 154) but never used by this style. -/
def generate_layered_lines_poster (params : RawParams) (point_count : Nat) (g0 : Rng) :
    Except PyError (Canvas × Rng × RawParams) :=
  match linesLoop (resolveParams params).palette (resolveParams params).wobble
      (List.range point_count)
      (setup_canvas style2Title g0).1 (setup_canvas style2Title g0).2 with
  | .error e => .error e
  | .ok (c, g) => .ok (c, g, params)

/-- Body of the inner grid loop of `generate_convex_tiles_poster` (lines 192-198):
the circle for cell `(i, j)`, consuming one `np.random.rand()` draw. -/
def tileStep (step wobble : ℚ) (color : String) (i j : Nat) (g : Rng) : Draw × Rng :=
  ((Draw.circle ((i : ℚ) * step + step / 2) ((j : ℚ) * step + step / 2)
      (step / 2 * (1 - wobble * (npRand g).1)) color (8/10)), (npRand g).2)

/-- The inner `for j in range(GRID_SIZE)` loop of `generate_convex_tiles_poster`. -/
def tilesInner (colors : List String) (gridSize : Int) (step wobble : ℚ) (i : Nat) :
    List Nat → Canvas → Rng → Except PyError (Canvas × Rng)
  | [], c, g => .ok (c, g)
  | j :: rest, c, g =>
    match pyIndexMod colors (i * gridSize.toNat + j) with
    | .error e => .error e
    | .ok color =>
      tilesInner colors gridSize step wobble i rest
        ⟨c.title, c.draws ++ [(tileStep step wobble color i j g).1]⟩
        (tileStep step wobble color i j g).2

/-- The outer `for i in range(GRID_SIZE)` loop of `generate_convex_tiles_poster`. -/
def tilesOuter (colors : List String) (gridSize : Int) (step wobble : ℚ) :
    List Nat → Canvas → Rng → Except PyError (Canvas × Rng)
  | [], c, g => .ok (c, g)
  | i :: rest, c, g =>
    match tilesInner colors gridSize step wobble i (pyRange gridSize) c g with
    | .error e => .error e
    | .ok (c', g') => tilesOuter colors gridSize step wobble rest c' g'

/-- `generate_convex_tiles_poster` (lines 176-199).  `STEP = 1.0 / GRID_SIZE`
(line 188) raises `ZeroDivisionError` when the resolved `layers` is zero. -/
def generate_convex_tiles_poster (params : RawParams) (g0 : Rng) :
    Except PyError (Canvas × Rng × RawParams) :=
  match pyDiv 1 (resolveParams params).layers with
  | .error e => .error e
  | .ok step =>
    match tilesOuter (resolveParams params).palette (resolveParams params).layers step
        (resolveParams params).wobble (pyRange (resolveParams params).layers)
        (setup_canvas style3Title g0).1 (setup_canvas style3Title g0).2 with
    | .error e => .error e
    | .ok (c, g) => .ok (c, g, params)

/-- The three style names offered by the `st.selectbox` of `main` (line 338). -/
def offeredStyles : List String :=
  ["Impressionism Touch", "Layered Lines", "Convex Tiles"]

def layeredLinesStyle : String := "Layered Lines"

def convexTilesStyle : String := "Convex Tiles"

/-- The style dispatch of `main` (lines 342-348): `"Layered Lines"` and
`"Convex Tiles"` dispatch to their generators; every other name, known or not,
falls into the `else` branch and runs the Impressionism Touch (ScatterTexture)
generator.  The density knob `point_count` is passed to the Layered Lines and
Impressionism Touch generators only. -/
def dispatchStyle (selected_style : String) (params : RawParams) (point_count : Nat) (g0 : Rng) :
    Except PyError (Canvas × Rng × RawParams) :=
  if selected_style = layeredLinesStyle then
    generate_layered_lines_poster params point_count g0
  else if selected_style = convexTilesStyle then
    generate_convex_tiles_poster params g0
  else
    generate_impressionism_touch_poster params point_count g0

/-- The interval `[0, 1)` of the base uniform draws. -/
def unitRange (q : ℚ) : Prop := 0 ≤ q ∧ q < 1

/-- What one iteration of the ScatterTexture loop draws for layer index `i`:
a single scatter command whose color is `palette[i % len(palette)]`, whose
`nPoints` x and y coordinates are uniform draws in `[0, 1)` each shifted by the
layer's single jitter offset (`wobble * 0.1` times a standard-normal variate,
one offset per coordinate array, not per point), whose single marker size is
one uniform draw in `[10, 50)` applied to the whole layer, and whose opacity
is 0.15. -/
def ScatterLayerOK (colors : List String) (wobble : ℚ) (nPoints : Nat) (i : Nat) (d : Draw) :
    Prop :=
  ∃ (xs ys : List ℚ) (dx dy sz : ℚ),
    d = Draw.scatter (xs.map (fun v => v + dx)) (ys.map (fun v => v + dy)) sz
        (palColor colors i) (15/100) ∧
    xs.length = nPoints ∧ ys.length = nPoints ∧
    (∀ v ∈ xs, unitRange v) ∧ (∀ v ∈ ys, unitRange v) ∧
    (∃ z, dx = wobble * (1/10) * z) ∧ (∃ z, dy = wobble * (1/10) * z) ∧
    (∃ u, unitRange u ∧ sz = 10 + (50 - 10) * u)

/-- What one iteration of the LayeredLine loop draws for segment index `i`:
color `palette[i % len(palette)]`; for even `i` the x endpoints are
`(start.x, end.x + wobble * 0.5)` and both y endpoints are `start.y` plus an
independent `wobble * 0.05`-scaled normal jitter; for odd `i` the transposed
construction; line width one uniform draw in `[1, 5)`; opacity 0.3; draw order
(`zorder`) equal to `i`. -/
def LineSegOK (colors : List String) (wobble : ℚ) (i : Nat) (d : Draw) : Prop :=
  ∃ (sx sy ex ey j1 j2 lw : ℚ),
    ((i % 2 = 0 ∧
        d = Draw.plotLine sx (ex + wobble * (1/2)) (sy + j1) (sy + j2)
            (palColor colors i) lw (3/10) i) ∨
      (¬ i % 2 = 0 ∧
        d = Draw.plotLine (sx + j1) (sx + j2) sy (ey + wobble * (1/2))
            (palColor colors i) lw (3/10) i)) ∧
    unitRange sx ∧ unitRange sy ∧ unitRange ex ∧ unitRange ey ∧
    (∃ z, j1 = wobble * (5/100) * z) ∧ (∃ z, j2 = wobble * (5/100) * z) ∧
    (∃ u, unitRange u ∧ lw = 1 + (5 - 1) * u)

/-- What the TiledCircle grid draws for cell `(i, j)` on a grid of side `ln`
with cell size `step`: one circle of color `palette[(i * ln + j) % len(palette)]`,
center `(i * step + step / 2, j * step + step / 2)`, radius
`(step / 2) * (1 - wobble * u)` for a fresh uniform draw `u` in `[0, 1)`, and
opacity 0.8. -/
def TileCellOK (colors : List String) (ln : Nat) (step wobble : ℚ) (i j : Nat) (d : Draw) :
    Prop :=
  ∃ u : ℚ, d = Draw.circle ((i : ℚ) * step + step / 2) ((j : ℚ) * step + step / 2)
      (step / 2 * (1 - wobble * u)) (palColor colors (i * ln + j)) (8/10) ∧
    unitRange u

/-- The ScatterTexture rendering contract for one call: the render succeeds,
leaves the parameter dict unchanged, draws exactly `layers` scatter layers, and
layer `k` satisfies `ScatterLayerOK` at index `k`. -/
def ScatterStructure (rp : RawParams) (nPoints : Nat) (g0 : Rng) : Prop :=
  ∃ c g', generate_impressionism_touch_poster rp nPoints g0 = .ok (c, g', rp) ∧
    c.draws.length = (resolveParams rp).layers.toNat ∧
    ∀ k (hk : k < c.draws.length),
      ScatterLayerOK (resolveParams rp).palette (resolveParams rp).wobble nPoints k
        (c.draws.get ⟨k, hk⟩)

/-- The LayeredLine rendering contract for one call: the render succeeds, leaves
the parameter dict unchanged, draws exactly `nLines` segments, and segment `k`
satisfies `LineSegOK` at index `k`. -/
def LinesStructure (rp : RawParams) (nLines : Nat) (g0 : Rng) : Prop :=
  ∃ c g', generate_layered_lines_poster rp nLines g0 = .ok (c, g', rp) ∧
    c.draws.length = nLines ∧
    ∀ k (hk : k < c.draws.length),
      LineSegOK (resolveParams rp).palette (resolveParams rp).wobble k
        (c.draws.get ⟨k, hk⟩)

/-- The TiledCircle rendering contract for one call: the render succeeds, leaves
the parameter dict unchanged, draws exactly `layers * layers` circles arranged as
`layers` row blocks of `layers` cells, cell `(i, j)` satisfying `TileCellOK` with
`step = 1 / layers`; and when `wobble` lies in the recommended range
`[0.1, 0.5]`, every drawn circle's radius lies in `(0, step / 2]`. -/
def TilesStructure (rp : RawParams) (g0 : Rng) : Prop :=
  ∃ c g', generate_convex_tiles_poster rp g0 = .ok (c, g', rp) ∧
    c.draws.length = (resolveParams rp).layers.toNat * (resolveParams rp).layers.toNat ∧
    (∃ blocks, c.draws = blocks.flatten ∧
      List.Forall₂ (fun i bl =>
        List.Forall₂
          (TileCellOK (resolveParams rp).palette (resolveParams rp).layers.toNat
            (1 / ((resolveParams rp).layers : ℚ)) (resolveParams rp).wobble i)
          (List.range (resolveParams rp).layers.toNat) bl)
        (List.range (resolveParams rp).layers.toNat) blocks) ∧
    (1/10 ≤ (resolveParams rp).wobble → (resolveParams rp).wobble ≤ 1/2 →
      ∀ d ∈ c.draws, ∀ cx cy r col al, d = Draw.circle cx cy r col al →
        0 < r ∧ r ≤ (1 / ((resolveParams rp).layers : ℚ)) / 2)

/-- An empty parameter mapping: every key absent. -/
def emptyParams : RawParams := ⟨none, none, none, none⟩

/-- A mapping carrying only `layers = 8`. -/
def onlyLayers8 : RawParams := ⟨none, some 8, none, none⟩

/-- A mapping whose `color_palette` key is present but holds an empty list. -/
def emptyPaletteParams : RawParams := ⟨some [], none, none, none⟩

/-- Concrete parameters used to witness the ScatterTexture structure theorem. -/
def scatterWitnessParams : RawParams := ⟨some ["#112233", "#445566"], some 2, some (3/10), none⟩

/-- Concrete parameters used to witness the LayeredLine structure theorem. -/
def linesWitnessParams : RawParams := ⟨some ["#112233"], some 3, some (2/10), none⟩

/-- Concrete parameters used to witness the TiledCircle structure theorem. -/
def tilesWitnessParams : RawParams := ⟨some ["#0A0B0C", "#0D0E0F", "#101112"], some 2, some (1/4), none⟩

/-- Concrete parameters used to witness the read-only-consumption theorem. -/
def readOnlyWitnessParams : RawParams := ⟨some ["#ABCDEF"], some 1, some 0, some "notes"⟩

/-- A mapping carrying only a strictly negative `layers` value. -/
def negativeLayersParams : RawParams := ⟨none, some (-3), none, none⟩

/-- A style name outside the offered list, used by the dispatch counterexample. -/
def unknownStyleName : String := "Watercolor"

/-- Another style name outside the offered list, used by the dispatch witness. -/
def secondUnknownStyleName : String := "Oil Painting"

/-! ## Basic properties of the modelled random stream -/

theorem lcgNext_lt (s : Nat) : lcgNext s < rngModulus :=
  Nat.mod_lt _ (by norm_num [rngModulus])

theorem Rng.next_unitRange (g : Rng) : unitRange (g.next).1 := by
  show 0 ≤ (lcgNext g.state : ℚ) / (rngModulus : ℚ) ∧
    (lcgNext g.state : ℚ) / (rngModulus : ℚ) < 1
  constructor
  · positivity
  · rw [div_lt_one (by norm_num [rngModulus])]
    exact_mod_cast lcgNext_lt g.state

theorem npUniform01_unitRange (g : Rng) : unitRange (npUniform 0 1 g).1 := by
  obtain ⟨h1, h2⟩ := Rng.next_unitRange g
  show 0 ≤ 0 + (1 - 0) * (g.next).1 ∧ 0 + (1 - 0) * (g.next).1 < 1
  constructor
  · linarith
  · linarith

theorem npUniform_shape (a b : ℚ) (g : Rng) :
    ∃ u, unitRange u ∧ (npUniform a b g).1 = a + (b - a) * u :=
  ⟨(g.next).1, Rng.next_unitRange g, rfl⟩

theorem npNormal_zero_shape (sigma : ℚ) (g : Rng) :
    ∃ z, (npNormal 0 sigma g).1 = sigma * z :=
  ⟨2 * (g.next).1 - 1, by simp [npNormal]⟩

theorem npUniformArr_length (a b : ℚ) (n : Nat) : ∀ g : Rng,
    ((npUniformArr a b n g).1).length = n := by
  induction n with
  | zero => intro g; rfl
  | succ n ih => intro g; simp [npUniformArr, ih]

theorem npUniformArr01_unit (n : Nat) : ∀ g : Rng, ∀ v ∈ (npUniformArr 0 1 n g).1,
    unitRange v := by
  induction n with
  | zero => intro g v hv; simp [npUniformArr] at hv
  | succ n ih =>
    intro g v hv
    simp only [npUniformArr, List.mem_cons] at hv
    rcases hv with h | h
    · exact h ▸ npUniform01_unitRange g
    · exact ih _ v h

/-! ## Palette indexing -/

theorem pyIndexMod_ok (colors : List String) (hne : colors ≠ []) (i : Nat) :
    pyIndexMod colors i = .ok (palColor colors i) := by
  cases colors with
  | nil => exact absurd rfl hne
  | cons a l => rfl

/-! ## Helpers about `List.Forall₂` -/

theorem forall2_mem_right {α β : Type} {R : α → β → Prop} :
    ∀ {as : List α} {bs : List β}, List.Forall₂ R as bs → ∀ b ∈ bs, ∃ a ∈ as, R a b := by
  intro as bs h
  induction h with
  | nil => intro b hb; cases hb
  | cons hR _ ih =>
    intro b hb
    rcases List.mem_cons.mp hb with rfl | hb
    · exact ⟨_, List.mem_cons_self _ _, hR⟩
    · obtain ⟨a, ha, hRa⟩ := ih b hb
      exact ⟨a, List.mem_cons_of_mem _ ha, hRa⟩

theorem forall2_range_get {α : Type} {P : Nat → α → Prop} {n : Nat} {ds : List α}
    (h : List.Forall₂ P (List.range n) ds) :
    ds.length = n ∧ ∀ k (hk : k < ds.length), P k (ds.get ⟨k, hk⟩) := by
  have hlen : ds.length = n := by simpa using h.length_eq.symm
  refine ⟨hlen, ?_⟩
  intro k hk
  have h2 := (List.forall₂_iff_get.mp h).2 k (by simpa [hlen] using hk) hk
  simpa [List.get_eq_getElem, List.getElem_range] using h2

/-! ## Per-iteration lemmas for the three styles -/

theorem scatterStep_ok (colors : List String) (wobble : ℚ) (nPoints : Nat) (i : Nat) (g : Rng) :
    ScatterLayerOK colors wobble nPoints i (scatterStep wobble nPoints (palColor colors i) g).1 := by
  simp only [scatterStep, ScatterLayerOK]
  exact ⟨_, _, _, _, _, rfl, npUniformArr_length 0 1 nPoints _, npUniformArr_length 0 1 nPoints _,
    npUniformArr01_unit nPoints _, npUniformArr01_unit nPoints _,
    npNormal_zero_shape _ _, npNormal_zero_shape _ _, npUniform_shape 10 50 _⟩

theorem unitRange_zero : unitRange 0 := ⟨le_refl 0, by norm_num⟩

theorem lineStep_ok (colors : List String) (wobble : ℚ) (i : Nat) (g : Rng) :
    LineSegOK colors wobble i (lineStep wobble (palColor colors i) i g).1 := by
  by_cases hpar : i % 2 = 0
  · simp only [lineStep, hpar, if_true]
    exact ⟨_, _, _, 0, _, _, _, Or.inl ⟨hpar, rfl⟩,
      npUniform01_unitRange _, npUniform01_unitRange _, npUniform01_unitRange _, unitRange_zero,
      npNormal_zero_shape _ _, npNormal_zero_shape _ _, npUniform_shape 1 5 _⟩
  · simp only [lineStep, hpar, if_false]
    exact ⟨_, _, 0, _, _, _, _, Or.inr ⟨hpar, rfl⟩,
      npUniform01_unitRange _, npUniform01_unitRange _, unitRange_zero, npUniform01_unitRange _,
      npNormal_zero_shape _ _, npNormal_zero_shape _ _, npUniform_shape 1 5 _⟩

theorem tileStep_ok (colors : List String) (ln : Nat) (step wobble : ℚ) (i j : Nat) (g : Rng) :
    TileCellOK colors ln step wobble i j
      (tileStep step wobble (palColor colors (i * ln + j)) i j g).1 :=
  ⟨(g.next).1, rfl, Rng.next_unitRange g⟩

/-! ## Loop accumulation lemmas -/

theorem scatterLoop_spec (colors : List String) (wobble : ℚ) (nPoints : Nat)
    (hne : colors ≠ []) :
    ∀ (js : List Nat) (c : Canvas) (g : Rng),
      ∃ ds g', scatterLoop colors wobble nPoints js c g = .ok (⟨c.title, c.draws ++ ds⟩, g') ∧
        List.Forall₂ (ScatterLayerOK colors wobble nPoints) js ds := by
  intro js
  induction js with
  | nil =>
    intro c g
    exact ⟨[], g, by simp [scatterLoop], List.Forall₂.nil⟩
  | cons i rest ih =>
    intro c g
    obtain ⟨ds, g', hrun, hall⟩ :=
      ih ⟨c.title, c.draws ++ [(scatterStep wobble nPoints (palColor colors i) g).1]⟩
        (scatterStep wobble nPoints (palColor colors i) g).2
    refine ⟨(scatterStep wobble nPoints (palColor colors i) g).1 :: ds, g', ?_, ?_⟩
    · have hstep : scatterLoop colors wobble nPoints (i :: rest) c g =
          scatterLoop colors wobble nPoints rest
            ⟨c.title, c.draws ++ [(scatterStep wobble nPoints (palColor colors i) g).1]⟩
            (scatterStep wobble nPoints (palColor colors i) g).2 := by
        simp [scatterLoop, pyIndexMod_ok colors hne i]
      rw [hstep, hrun]
      simp
    · exact List.Forall₂.cons (scatterStep_ok colors wobble nPoints i g) hall

theorem linesLoop_spec (colors : List String) (wobble : ℚ) (hne : colors ≠ []) :
    ∀ (js : List Nat) (c : Canvas) (g : Rng),
      ∃ ds g', linesLoop colors wobble js c g = .ok (⟨c.title, c.draws ++ ds⟩, g') ∧
        List.Forall₂ (LineSegOK colors wobble) js ds := by
  intro js
  induction js with
  | nil =>
    intro c g
    exact ⟨[], g, by simp [linesLoop], List.Forall₂.nil⟩
  | cons i rest ih =>
    intro c g
    obtain ⟨ds, g', hrun, hall⟩ :=
      ih ⟨c.title, c.draws ++ [(lineStep wobble (palColor colors i) i g).1]⟩
        (lineStep wobble (palColor colors i) i g).2
    refine ⟨(lineStep wobble (palColor colors i) i g).1 :: ds, g', ?_, ?_⟩
    · have hstep : linesLoop colors wobble (i :: rest) c g =
          linesLoop colors wobble rest
            ⟨c.title, c.draws ++ [(lineStep wobble (palColor colors i) i g).1]⟩
            (lineStep wobble (palColor colors i) i g).2 := by
        simp [linesLoop, pyIndexMod_ok colors hne i]
      rw [hstep, hrun]
      simp
    · exact List.Forall₂.cons (lineStep_ok colors wobble i g) hall

theorem tilesInner_spec (colors : List String) (gridSize : Int) (step wobble : ℚ) (i : Nat)
    (hne : colors ≠ []) :
    ∀ (js : List Nat) (c : Canvas) (g : Rng),
      ∃ ds g', tilesInner colors gridSize step wobble i js c g =
          .ok (⟨c.title, c.draws ++ ds⟩, g') ∧
        List.Forall₂ (TileCellOK colors gridSize.toNat step wobble i) js ds := by
  intro js
  induction js with
  | nil =>
    intro c g
    exact ⟨[], g, by simp [tilesInner], List.Forall₂.nil⟩
  | cons j rest ih =>
    intro c g
    obtain ⟨ds, g', hrun, hall⟩ :=
      ih ⟨c.title, c.draws ++ [(tileStep step wobble (palColor colors (i * gridSize.toNat + j)) i j g).1]⟩
        (tileStep step wobble (palColor colors (i * gridSize.toNat + j)) i j g).2
    refine ⟨(tileStep step wobble (palColor colors (i * gridSize.toNat + j)) i j g).1 :: ds, g', ?_, ?_⟩
    · have hstep : tilesInner colors gridSize step wobble i (j :: rest) c g =
          tilesInner colors gridSize step wobble i rest
            ⟨c.title, c.draws ++ [(tileStep step wobble (palColor colors (i * gridSize.toNat + j)) i j g).1]⟩
            (tileStep step wobble (palColor colors (i * gridSize.toNat + j)) i j g).2 := by
        simp [tilesInner, pyIndexMod_ok colors hne (i * gridSize.toNat + j)]
      rw [hstep, hrun]
      simp
    · exact List.Forall₂.cons (tileStep_ok colors gridSize.toNat step wobble i j g) hall

theorem tilesOuter_spec (colors : List String) (gridSize : Int) (step wobble : ℚ)
    (hne : colors ≠ []) :
    ∀ (rows : List Nat) (c : Canvas) (g : Rng),
      ∃ blocks g', tilesOuter colors gridSize step wobble rows c g =
          .ok (⟨c.title, c.draws ++ blocks.flatten⟩, g') ∧
        List.Forall₂ (fun i bl =>
          List.Forall₂ (TileCellOK colors gridSize.toNat step wobble i) (pyRange gridSize) bl)
          rows blocks := by
  intro rows
  induction rows with
  | nil =>
    intro c g
    exact ⟨[], g, by simp [tilesOuter], List.Forall₂.nil⟩
  | cons i rest ih =>
    intro c g
    obtain ⟨bl, g1, hrun1, hall1⟩ :=
      tilesInner_spec colors gridSize step wobble i hne (pyRange gridSize) c g
    obtain ⟨blocks, g', hrun2, hall2⟩ := ih ⟨c.title, c.draws ++ bl⟩ g1
    refine ⟨bl :: blocks, g', ?_, List.Forall₂.cons hall1 hall2⟩
    have hstep : tilesOuter colors gridSize step wobble (i :: rest) c g =
        tilesOuter colors gridSize step wobble rest ⟨c.title, c.draws ++ bl⟩ g1 := by
      simp [tilesOuter, hrun1]
    rw [hstep, hrun2]
    simp

/-! ## Claim theorems -/

/-- Claim C1: parameter resolution contract.  For every untrusted input mapping,
each of the three fields resolves to its hardcoded default exactly when the key
is absent (palette = the 4 fixed HEX colors, layers = 5, wobble = 0.2) and a
present value is passed through unchanged; in particular an empty mapping
resolves to the full default set and a mapping carrying only `layers = 8`
resolves to the default palette, layers 8 and wobble 0.2.  `resolveParams` is a
total function, so resolution never fails. -/
theorem claim_C1_parameter_resolution :
    (∀ rp : RawParams,
      (rp.color_palette = none → (resolveParams rp).palette = defaultPalette) ∧
      (∀ v, rp.color_palette = some v → (resolveParams rp).palette = v) ∧
      (rp.layers = none → (resolveParams rp).layers = 5) ∧
      (∀ v, rp.layers = some v → (resolveParams rp).layers = v) ∧
      (rp.wobble_factor = none → (resolveParams rp).wobble = 2/10) ∧
      (∀ v, rp.wobble_factor = some v → (resolveParams rp).wobble = v)) ∧
    resolveParams emptyParams = ⟨defaultPalette, 5, 2/10⟩ ∧
    resolveParams onlyLayers8 = ⟨defaultPalette, 8, 2/10⟩ ∧
    defaultPalette.length = 4 := by
  refine ⟨?_, rfl, rfl, rfl⟩
  intro rp
  refine ⟨fun h => ?_, fun v h => ?_, fun h => ?_, fun v h => ?_, fun h => ?_, fun v h => ?_⟩ <;>
    simp [resolveParams, h]

theorem claim_C1_parameter_resolution_witness :
    (resolveParams ⟨none, some 8, some (7/10), none⟩).layers = 8 ∧
      (resolveParams ⟨none, some 8, some (7/10), none⟩).wobble = 7/10 ∧
      (resolveParams ⟨none, some 8, some (7/10), none⟩).palette = defaultPalette :=
  ⟨(claim_C1_parameter_resolution.1 ⟨none, some 8, some (7/10), none⟩).2.2.2.1 8 rfl,
   (claim_C1_parameter_resolution.1 ⟨none, some 8, some (7/10), none⟩).2.2.2.2.2 (7/10) rfl,
   (claim_C1_parameter_resolution.1 ⟨none, some 8, some (7/10), none⟩).1 rfl⟩

/-- Claim C2: determinism.  For every parameter mapping, style name and density,
two renders started from arbitrary (in general different) states of the global
random stream produce identical results — identical geometry in identical order
— because `setup_canvas` reseeds the stream with the constant 42 before any
draw. -/
theorem claim_C2_render_deterministic (style : String) (rp : RawParams) (density : Nat)
    (g0 g1 : Rng) :
    dispatchStyle style rp density g0 = dispatchStyle style rp density g1 := rfl

/-- Claim C6 (the code side of the recorded bug): passing `layers = 0` to the
TiledCircle renderer hits `STEP = 1.0 / GRID_SIZE` (line 188) and fails with
Python's `ZeroDivisionError` — not with the `InvalidParameter` error the design
document requires. -/
theorem claim_C6_zero_layers_division_fault (pal : Option (List String)) (w : Option ℚ)
    (an : Option String) (g0 : Rng) :
    generate_convex_tiles_poster ⟨pal, some 0, w, an⟩ g0 = .error PyError.zeroDivision ∧
      generate_convex_tiles_poster ⟨pal, some 0, w, an⟩ g0 ≠ .error PyError.invalidParameter := by
  have h : generate_convex_tiles_poster ⟨pal, some 0, w, an⟩ g0 = .error PyError.zeroDivision := by
    simp [generate_convex_tiles_poster, resolveParams, pyDiv]
  exact ⟨h, by simp [h]⟩

/-- Claim C7, counterexample: a style name outside the three offered names does
not fail with an `UnsupportedStyle` error; the dispatch silently falls through
to the ScatterTexture (Impressionism Touch) generator. -/
theorem claim_C7_counterexample :
    dispatchStyle unknownStyleName emptyParams 1 (npSeed 0) =
        generate_impressionism_touch_poster emptyParams 1 (npSeed 0) ∧
      dispatchStyle unknownStyleName emptyParams 1 (npSeed 0) ≠
        Except.error PyError.unsupportedStyle := by
  constructor
  · rfl
  · decide

/-- Claim C7 as amended: every style name other than `"Layered Lines"` and
`"Convex Tiles"` (in particular every name outside the three offered ones)
silently dispatches to the ScatterTexture generator rather than failing;
`"Layered Lines"` and `"Convex Tiles"` dispatch to their matching renderers,
with the density argument consumed by the Layered Lines and ScatterTexture
generators and ignored by the TiledCircle generator. -/
theorem claim_C7_amended_dispatch (style : String) (rp : RawParams)
    (density density2 : Nat) (g : Rng)
    (h1 : style ≠ layeredLinesStyle) (h2 : style ≠ convexTilesStyle) :
    dispatchStyle style rp density g = generate_impressionism_touch_poster rp density g ∧
      dispatchStyle layeredLinesStyle rp density g =
        generate_layered_lines_poster rp density g ∧
      dispatchStyle convexTilesStyle rp density g = generate_convex_tiles_poster rp g ∧
      dispatchStyle convexTilesStyle rp density g =
        dispatchStyle convexTilesStyle rp density2 g := by
  refine ⟨?_, ?_, ?_, ?_⟩
  · simp [dispatchStyle, h1, h2]
  · simp [dispatchStyle]
  · have hne : convexTilesStyle ≠ layeredLinesStyle := by decide
    simp [dispatchStyle, hne]
  · have hne : convexTilesStyle ≠ layeredLinesStyle := by decide
    simp [dispatchStyle, hne]

theorem claim_C7_amended_dispatch_witness :
    dispatchStyle secondUnknownStyleName emptyParams 1 (npSeed 3) =
      generate_impressionism_touch_poster emptyParams 1 (npSeed 3) :=
  (claim_C7_amended_dispatch secondUnknownStyleName emptyParams 1 2 (npSeed 3)
    (by decide) (by decide)).1

/-- Claim C8, counterexample: a mapping whose `color_palette` key is present but
holds an empty sequence is not replaced by the default; the empty palette
reaches the renderer, where the modulo indexing `i % len(colors)` operates on
length zero and the render fails with `ZeroDivisionError`. -/
theorem claim_C8_counterexample :
    (resolveParams emptyPaletteParams).palette = [] ∧
      generate_impressionism_touch_poster emptyPaletteParams 1 (npSeed 0) =
        Except.error PyError.zeroDivision := by
  constructor
  · rfl
  · decide

/-- Claim C8 as amended: the default palette is substituted only when the
`color_palette` key is absent, so the palette a renderer consumes is non-empty
whenever the key is absent or maps to a non-empty sequence; for such mappings
the modulo index `i % len(palette)` never operates on length zero. -/
theorem claim_C8_amended_palette_invariant (rp : RawParams)
    (h : rp.color_palette = none ∨ ∃ pal, rp.color_palette = some pal ∧ pal ≠ []) :
    (resolveParams rp).palette ≠ [] ∧
      ∀ i : Nat, i % (resolveParams rp).palette.length < (resolveParams rp).palette.length := by
  have hne : (resolveParams rp).palette ≠ [] := by
    rcases h with h | ⟨pal, hp, hpal⟩
    · simp [resolveParams, h, defaultPalette]
    · simp [resolveParams, hp, hpal]
  exact ⟨hne, fun i => Nat.mod_lt _ (List.length_pos.mpr hne)⟩

theorem claim_C8_amended_palette_invariant_witness :
    (resolveParams ⟨none, some 3, none, none⟩).palette ≠ [] ∧
      7 % (resolveParams ⟨none, some 3, none, none⟩).palette.length <
        (resolveParams ⟨none, some 3, none, none⟩).palette.length :=
  ⟨(claim_C8_amended_palette_invariant ⟨none, some 3, none, none⟩ (Or.inl rfl)).1,
   (claim_C8_amended_palette_invariant ⟨none, some 3, none, none⟩ (Or.inl rfl)).2 7⟩

/-- Claim C3: ScatterTexture structure.  For every parameter mapping resolving to
`layers = L ≥ 1` and a non-empty palette, and every point count, the render
succeeds and draws exactly `L` scatter layers; layer `i` has color
`palette[i % P]`, `pointCount` uniform points per coordinate array, one normal
jitter offset (scale `wobble * 0.1`) applied to the entire array, one marker
size drawn uniformly in `[10, 50)` applied to the whole layer, and opacity
0.15. -/
theorem claim_C3_scatter_structure (rp : RawParams) (nPoints : Nat) (g0 : Rng)
    (hpal : (resolveParams rp).palette ≠ []) (hL : 1 ≤ (resolveParams rp).layers) :
    ScatterStructure rp nPoints g0 := by
  obtain ⟨ds, g', hrun, hall⟩ :=
    scatterLoop_spec (resolveParams rp).palette (resolveParams rp).wobble nPoints hpal
      (pyRange (resolveParams rp).layers) ⟨style1Title, []⟩ (npSeed 42)
  simp only [pyRange] at hall
  obtain ⟨hlen, hget⟩ := forall2_range_get hall
  refine ⟨⟨style1Title, ds⟩, g', ?_, hlen, hget⟩
  simp only [generate_impressionism_touch_poster, setup_canvas]
  rw [hrun]
  simp

theorem claim_C3_scatter_structure_witness :
    ((resolveParams scatterWitnessParams).palette ≠ [] ∧
        1 ≤ (resolveParams scatterWitnessParams).layers) ∧
      ScatterStructure scatterWitnessParams 3 (npSeed 7) :=
  ⟨⟨by decide, by decide⟩,
    claim_C3_scatter_structure scatterWitnessParams 3 (npSeed 7) (by decide) (by decide)⟩

/-- Claim C5: LayeredLine structure.  For every parameter mapping resolving to a
non-empty palette and every line count `N`, the render succeeds and draws
exactly `N` segments; segment `i` has color `palette[i % P]`, the even/odd
endpoint construction of the source with jitter scale `wobble * 0.05` and the
`wobble * 0.5` horizontal (resp. vertical) stretch, a line width drawn
uniformly in `[1, 5)`, opacity 0.3, and draw order `zorder = i`. -/
theorem claim_C5_lines_structure (rp : RawParams) (nLines : Nat) (g0 : Rng)
    (hpal : (resolveParams rp).palette ≠ []) :
    LinesStructure rp nLines g0 := by
  obtain ⟨ds, g', hrun, hall⟩ :=
    linesLoop_spec (resolveParams rp).palette (resolveParams rp).wobble hpal
      (List.range nLines) ⟨style2Title, []⟩ (npSeed 42)
  obtain ⟨hlen, hget⟩ := forall2_range_get hall
  refine ⟨⟨style2Title, ds⟩, g', ?_, hlen, hget⟩
  simp only [generate_layered_lines_poster, setup_canvas]
  rw [hrun]
  simp

theorem claim_C5_lines_structure_witness :
    (resolveParams linesWitnessParams).palette ≠ [] ∧
      LinesStructure linesWitnessParams 10 (npSeed 11) :=
  ⟨by decide, claim_C5_lines_structure linesWitnessParams 10 (npSeed 11) (by decide)⟩

/-! ## Preservation of the parameter dict -/

theorem impressionism_preserves_params (rp : RawParams) (n : Nat) (g : Rng)
    (c : Canvas) (g' : Rng) (rpA : RawParams)
    (h : generate_impressionism_touch_poster rp n g = .ok (c, g', rpA)) : rpA = rp := by
  unfold generate_impressionism_touch_poster at h
  split at h
  · exact Except.noConfusion h
  · injection h with h2
    exact (congrArg (fun t : Canvas × Rng × RawParams => t.2.2) h2).symm

theorem lines_preserves_params (rp : RawParams) (n : Nat) (g : Rng)
    (c : Canvas) (g' : Rng) (rpA : RawParams)
    (h : generate_layered_lines_poster rp n g = .ok (c, g', rpA)) : rpA = rp := by
  unfold generate_layered_lines_poster at h
  split at h
  · exact Except.noConfusion h
  · injection h with h2
    exact (congrArg (fun t : Canvas × Rng × RawParams => t.2.2) h2).symm

theorem tiles_preserves_params (rp : RawParams) (g : Rng)
    (c : Canvas) (g' : Rng) (rpA : RawParams)
    (h : generate_convex_tiles_poster rp g = .ok (c, g', rpA)) : rpA = rp := by
  unfold generate_convex_tiles_poster at h
  split at h
  · exact Except.noConfusion h
  · split at h
    · exact Except.noConfusion h
    · injection h with h2
      exact (congrArg (fun t : Canvas × Rng × RawParams => t.2.2) h2).symm

/-- Claim C9: read-only parameter consumption.  Whatever style is dispatched and
whatever the parameter mapping, a successful render returns the parameter
mapping exactly as it was passed in — no key (the optional `analysis` field
included) is added, removed or modified, so the same parameters can be reused
for another render. -/
theorem claim_C9_read_only_params (style : String) (rp : RawParams) (density : Nat)
    (g : Rng) (c : Canvas) (g' : Rng) (rpAfter : RawParams)
    (h : dispatchStyle style rp density g = .ok (c, g', rpAfter)) :
    rpAfter = rp := by
  unfold dispatchStyle at h
  split at h
  · exact lines_preserves_params rp density g c g' rpAfter h
  · split at h
    · exact tiles_preserves_params rp g c g' rpAfter h
    · exact impressionism_preserves_params rp density g c g' rpAfter h

theorem claim_C9_read_only_params_witness :
    dispatchStyle layeredLinesStyle readOnlyWitnessParams 0 (npSeed 0) =
        Except.ok (⟨style2Title, []⟩, npSeed 42, readOnlyWitnessParams) ∧
      readOnlyWitnessParams = readOnlyWitnessParams := by
  have h : dispatchStyle layeredLinesStyle readOnlyWitnessParams 0 (npSeed 0) =
      Except.ok (⟨style2Title, []⟩, npSeed 42, readOnlyWitnessParams) := by decide
  exact ⟨h, claim_C9_read_only_params layeredLinesStyle readOnlyWitnessParams 0 (npSeed 0)
    _ _ _ h⟩

/-- Claim C10: negative-layers edge case.  A mapping whose present `layers`
value is strictly negative makes both grid loops of the TiledCircle renderer
(and the layer loop of the ScatterTexture renderer) iterate over an empty
range: no error is raised and the returned canvas carries zero draws. -/
theorem claim_C10_negative_layers (rp : RawParams) (L : Int) (n : Nat) (g0 : Rng)
    (hL : rp.layers = some L) (hneg : L < 0) :
    generate_convex_tiles_poster rp g0 = .ok (⟨style3Title, []⟩, npSeed 42, rp) ∧
      generate_impressionism_touch_poster rp n g0 = .ok (⟨style1Title, []⟩, npSeed 42, rp) := by
  have hres : (resolveParams rp).layers = L := by simp [resolveParams, hL]
  have hrange : pyRange (resolveParams rp).layers = [] := by
    rw [hres]
    simp [pyRange, Int.toNat_of_nonpos (le_of_lt hneg)]
  have hdiv : pyDiv 1 (resolveParams rp).layers = .ok (1 / ((resolveParams rp).layers : ℚ)) := by
    rw [hres]
    simp [pyDiv, show L ≠ 0 by omega]
  constructor
  · simp [generate_convex_tiles_poster, setup_canvas, hdiv, hrange, tilesOuter]
  · simp [generate_impressionism_touch_poster, setup_canvas, hrange, scatterLoop]

theorem claim_C10_negative_layers_witness :
    generate_convex_tiles_poster negativeLayersParams (npSeed 9) =
        Except.ok (⟨style3Title, []⟩, npSeed 42, negativeLayersParams) ∧
      generate_impressionism_touch_poster negativeLayersParams 4 (npSeed 9) =
        Except.ok (⟨style1Title, []⟩, npSeed 42, negativeLayersParams) :=
  claim_C10_negative_layers negativeLayersParams (-3) 4 (npSeed 9) rfl (by decide)

/-- Claim C4: TiledCircle structure.  For every parameter mapping resolving to
`layers = L ≥ 1` and a non-empty palette, the render succeeds and draws exactly
`L * L` circles, row by row over the grid with `step = 1 / L`; the circle of
cell `(i, j)` has color `palette[(i * L + j) % P]`, center
`(i * step + step / 2, j * step + step / 2)`, radius
`(step / 2) * (1 - wobble * u)` for a fresh uniform draw `u ∈ [0, 1)`, and
opacity 0.8; and when `wobble` lies in the recommended range `[0.1, 0.5]`
every radius lies in `(0, step / 2]`. -/
theorem claim_C4_tiles_structure (rp : RawParams) (g0 : Rng)
    (hpal : (resolveParams rp).palette ≠ []) (hL : 1 ≤ (resolveParams rp).layers) :
    TilesStructure rp g0 := by
  obtain ⟨blocks, g', hrun, hall⟩ :=
    tilesOuter_spec (resolveParams rp).palette (resolveParams rp).layers
      (1 / ((resolveParams rp).layers : ℚ)) (resolveParams rp).wobble hpal
      (pyRange (resolveParams rp).layers) ⟨style3Title, []⟩ (npSeed 42)
  have hdiv : pyDiv 1 (resolveParams rp).layers =
      .ok (1 / ((resolveParams rp).layers : ℚ)) := by
    simp [pyDiv, show (resolveParams rp).layers ≠ 0 by omega]
  have hblen : blocks.length = (resolveParams rp).layers.toNat := by
    simpa [pyRange] using hall.length_eq.symm
  have hmap : blocks.map List.length =
      List.replicate (resolveParams rp).layers.toNat (resolveParams rp).layers.toNat := by
    rw [List.eq_replicate_iff]
    refine ⟨by simpa using hblen, ?_⟩
    intro b hb
    obtain ⟨bl, hbl, rfl⟩ := List.mem_map.mp hb
    obtain ⟨i, hi, hinner⟩ := forall2_mem_right hall bl hbl
    simpa [pyRange] using hinner.length_eq.symm
  refine ⟨⟨style3Title, blocks.flatten⟩, g', ?_, ?_, ?_, ?_⟩
  · simp only [generate_convex_tiles_poster, setup_canvas, hdiv]
    rw [hrun]
    simp
  · show blocks.flatten.length = _
    rw [List.length_flatten, hmap, List.sum_replicate, smul_eq_mul]
  · refine ⟨blocks, rfl, ?_⟩
    simpa [pyRange] using hall
  · intro hw1 hw2 d hd cx cy r col al hdeq
    obtain ⟨bl, hbl, hdbl⟩ := List.mem_flatten.mp hd
    obtain ⟨i, hi, hinner⟩ := forall2_mem_right hall bl hbl
    obtain ⟨j, hj, hcell⟩ := forall2_mem_right hinner d hdbl
    obtain ⟨u, hdeq2, hu⟩ := hcell
    obtain ⟨hu0, hu1⟩ := (hu : 0 ≤ u ∧ u < 1)
    rw [hdeq] at hdeq2
    injection hdeq2 with h1 h2 h3 h4 h5
    subst h3
    have hcast : (0 : ℚ) < ((resolveParams rp).layers : ℚ) := by
      exact_mod_cast (by omega : (0 : Int) < (resolveParams rp).layers)
    have hstep_pos : 0 < 1 / ((resolveParams rp).layers : ℚ) := by positivity
    have hs2 : 0 < 1 / ((resolveParams rp).layers : ℚ) / 2 := by positivity
    have hwu_le : (resolveParams rp).wobble * u ≤ 1/2 := by nlinarith
    have hwu0 : 0 ≤ (resolveParams rp).wobble * u := by nlinarith
    constructor
    · have h1mwu : 0 < 1 - (resolveParams rp).wobble * u := by linarith
      exact mul_pos hs2 h1mwu
    · nlinarith

theorem claim_C4_tiles_structure_witness :
    ((resolveParams tilesWitnessParams).palette ≠ [] ∧
        1 ≤ (resolveParams tilesWitnessParams).layers) ∧
      TilesStructure tilesWitnessParams (npSeed 5) :=
  ⟨⟨by decide, by decide⟩,
    claim_C4_tiles_structure tilesWitnessParams (npSeed 5) (by decide) (by decide)⟩
